import Mathlib

/-!
Verification of the authvital repository: two Python stub packages
(authvader_sdk and authvital_sdk), each consisting of a module docstring,
a version string, an author string, and a module-level catch-all
attribute handler that raises NotImplementedError.  The companion
specification also describes the intended identity-client design
(token manager, transport client, credential store); those components
are not present in the source and are modelled from the specification
where a claim needs them.
-/

/-- A Python value appearing in a stub module namespace: either a string
constant or a function object (only the attribute handler here). -/
inductive PyValue where
  | pystr (s : String)
  | pyfunc (tag : String)
deriving DecidableEq, Repr

/-- A Python exception relevant to the stubs. -/
inductive PyExc where
  | notImplementedError (msg : String)
deriving DecidableEq, Repr

namespace authvader_sdk

/-- The module docstring of src/sdks/python/authvader_sdk/__init__.py. -/
def __doc__ : String :=
  "\nAuthVader SDK for Python\n\nOfficial Python SDK for AuthVader Identity Platform.\nhttps://github.com/authvader/authvader\n\nStatus: Coming Soon\n"

/-- Line 9 of the module. -/
def __version__ : String := "0.0.1"

/-- Line 10 of the module. -/
def __author__ : String := "AuthVader Contributors"

/-- The message built by the two adjacent f-string literals inside the
raise statement; neither literal interpolates any expression. -/
def sdkMessage : String :=
  "AuthVader Python SDK is coming soon! " ++
  "Follow https://github.com/authvader/authvader for updates."

/-- The module-level attribute handler: `def __getattr__(name)` at lines
12-16, which unconditionally raises NotImplementedError with the
constant message. -/
def __getattr__ (name : String) : Except PyExc PyValue :=
  .error (.notImplementedError sdkMessage)

/-- The names bound in the module namespace by executing the module body:
the docstring, the two string constants, and the handler itself. -/
def moduleNamespace : List (String × PyValue) :=
  [("__doc__", .pystr __doc__),
   ("__version__", .pystr __version__),
   ("__author__", .pystr __author__),
   ("__getattr__", .pyfunc "__getattr__")]

end authvader_sdk

namespace authvital_sdk

/-- The module docstring of src/sdks/python/authvital_sdk/__init__.py. -/
def __doc__ : String :=
  "\nAuthVital SDK for Python\n\nOfficial Python SDK for AuthVital Identity Platform.\nhttps://github.com/authvital/authvital\n\nStatus: Coming Soon\n"

/-- Line 9 of the module. -/
def __version__ : String := "0.0.1"

/-- Line 10 of the module. -/
def __author__ : String := "AuthVital Contributors"

/-- The message built by the two adjacent f-string literals inside the
raise statement; neither literal interpolates any expression. -/
def sdkMessage : String :=
  "AuthVital Python SDK is coming soon! " ++
  "Follow https://github.com/authvital/authvital for updates."

/-- The module-level attribute handler: `def __getattr__(name)` at lines
12-16, which unconditionally raises NotImplementedError with the
constant message. -/
def __getattr__ (name : String) : Except PyExc PyValue :=
  .error (.notImplementedError sdkMessage)

/-- The names bound in the module namespace by executing the module body. -/
def moduleNamespace : List (String × PyValue) :=
  [("__doc__", .pystr __doc__),
   ("__version__", .pystr __version__),
   ("__author__", .pystr __author__),
   ("__getattr__", .pyfunc "__getattr__")]

end authvital_sdk

/-- Attribute access on a module, following PEP 562 as CPython implements
it for these stubs: a name present in the module namespace is returned
from the namespace; a missing name is delegated to the module-level
handler `__getattr__`. -/
def moduleGetattr (ns : List (String × PyValue))
    (handler : String → Except PyExc PyValue) (name : String) :
    Except PyExc PyValue :=
  match ns.lookup name with
  | some v => .ok v
  | none => handler name

/-- A successful lookup in an association list finds an actual entry. -/
theorem lookup_mem {l : List (String × PyValue)} {k : String} {v : PyValue}
    (h : l.lookup k = some v) : (k, v) ∈ l := by
  induction l with
  | nil => simp [List.lookup] at h
  | cons hd tl ih =>
    obtain ⟨a, b⟩ := hd
    rw [List.lookup] at h
    by_cases hk : k = a
    · have hb : (k == a) = true := beq_iff_eq.mpr hk
      simp [hb] at h
      subst hk
      subst h
      exact List.mem_cons_self _ _
    · have hb : (k == a) = false := beq_eq_false_iff_ne.mpr hk
      simp [hb] at h
      exact List.mem_cons_of_mem _ (ih h)

/-- A lookup fails exactly when the key is absent from the key column. -/
theorem lookup_none_iff {l : List (String × PyValue)} {k : String} :
    l.lookup k = none ↔ k ∉ l.map Prod.fst := by
  induction l with
  | nil => simp [List.lookup]
  | cons hd tl ih =>
    obtain ⟨a, b⟩ := hd
    rw [List.lookup]
    by_cases hk : k = a
    · have hb : (k == a) = true := beq_iff_eq.mpr hk
      simp [hb, hk]
    · have hb : (k == a) = false := beq_eq_false_iff_ne.mpr hk
      simp [hb, hk, ih]

/-- C1: for every attribute name, the module-level attribute handler of
each stub package raises NotImplementedError with its constant message,
hence never returns a value. -/
theorem c1_stub_getattr_always_raises (name : String) :
    authvader_sdk.__getattr__ name =
      .error (.notImplementedError authvader_sdk.sdkMessage) ∧
    authvital_sdk.__getattr__ name =
      .error (.notImplementedError authvital_sdk.sdkMessage) ∧
    (∀ v : PyValue, authvader_sdk.__getattr__ name ≠ .ok v) ∧
    (∀ v : PyValue, authvital_sdk.__getattr__ name ≠ .ok v) := by
  refine ⟨rfl, rfl, ?_, ?_⟩ <;> intro v h <;> simp [authvader_sdk.__getattr__,
    authvital_sdk.__getattr__] at h

/-- C2: both stub modules bind `__version__` and `__author__` in their
namespaces and both values are strings. -/
theorem c2_version_author_are_strings :
    authvader_sdk.moduleNamespace.lookup "__version__" =
      some (.pystr "0.0.1") ∧
    authvader_sdk.moduleNamespace.lookup "__author__" =
      some (.pystr "AuthVader Contributors") ∧
    authvital_sdk.moduleNamespace.lookup "__version__" =
      some (.pystr "0.0.1") ∧
    authvital_sdk.moduleNamespace.lookup "__author__" =
      some (.pystr "AuthVital Contributors") :=
  ⟨rfl, rfl, rfl, rfl⟩

/-- C3: every attribute access on either stub module either yields a value
actually bound in the module namespace or raises NotImplementedError with
the constant message; there is no other observable behaviour. -/
theorem c3_only_observable_behaviours (name : String) :
    ((∃ v, moduleGetattr authvader_sdk.moduleNamespace
        authvader_sdk.__getattr__ name = .ok v ∧
        (name, v) ∈ authvader_sdk.moduleNamespace) ∨
      moduleGetattr authvader_sdk.moduleNamespace
        authvader_sdk.__getattr__ name =
        .error (.notImplementedError authvader_sdk.sdkMessage)) ∧
    ((∃ v, moduleGetattr authvital_sdk.moduleNamespace
        authvital_sdk.__getattr__ name = .ok v ∧
        (name, v) ∈ authvital_sdk.moduleNamespace) ∨
      moduleGetattr authvital_sdk.moduleNamespace
        authvital_sdk.__getattr__ name =
        .error (.notImplementedError authvital_sdk.sdkMessage)) := by
  constructor
  · unfold moduleGetattr
    cases h : authvader_sdk.moduleNamespace.lookup name with
    | some v => exact Or.inl ⟨v, rfl, lookup_mem h⟩
    | none => exact Or.inr rfl
  · unfold moduleGetattr
    cases h : authvital_sdk.moduleNamespace.lookup name with
    | some v => exact Or.inl ⟨v, rfl, lookup_mem h⟩
    | none => exact Or.inr rfl

/-- C4: module-level attribute access raises NotImplementedError exactly
for the names absent from the module namespace; defined names such as
`__version__` are served from the namespace and do not reach the handler. -/
theorem c4_raises_iff_name_undefined (name : String) :
    ((∃ m, moduleGetattr authvader_sdk.moduleNamespace
        authvader_sdk.__getattr__ name = .error (.notImplementedError m)) ↔
      name ∉ authvader_sdk.moduleNamespace.map Prod.fst) ∧
    ((∃ m, moduleGetattr authvital_sdk.moduleNamespace
        authvital_sdk.__getattr__ name = .error (.notImplementedError m)) ↔
      name ∉ authvital_sdk.moduleNamespace.map Prod.fst) ∧
    moduleGetattr authvader_sdk.moduleNamespace authvader_sdk.__getattr__
      "__version__" = .ok (.pystr "0.0.1") ∧
    moduleGetattr authvital_sdk.moduleNamespace authvital_sdk.__getattr__
      "__version__" = .ok (.pystr "0.0.1") := by
  refine ⟨?_, ?_, rfl, rfl⟩
  · unfold moduleGetattr
    cases h : authvader_sdk.moduleNamespace.lookup name with
    | some v =>
      simp only [h]
      constructor
      · rintro ⟨m, hm⟩
        exact absurd hm (by simp)
      · intro habs
        exact absurd (lookup_none_iff.mpr habs) (by simp [h])
    | none => exact ⟨fun _ => lookup_none_iff.mp h,
        fun _ => ⟨authvader_sdk.sdkMessage, by simp [h, authvader_sdk.__getattr__]⟩⟩
  · unfold moduleGetattr
    cases h : authvital_sdk.moduleNamespace.lookup name with
    | some v =>
      simp only [h]
      constructor
      · rintro ⟨m, hm⟩
        exact absurd hm (by simp)
      · intro habs
        exact absurd (lookup_none_iff.mpr habs) (by simp [h])
    | none => exact ⟨fun _ => lookup_none_iff.mp h,
        fun _ => ⟨authvital_sdk.sdkMessage, by simp [h, authvital_sdk.__getattr__]⟩⟩

/-- C5: the outcome of each handler is literally the same for any two
attribute names; in particular the exception message is one fixed
constant into which the requested name is never interpolated. -/
theorem c5_message_independent_of_name (n1 n2 : String) :
    authvader_sdk.__getattr__ n1 = authvader_sdk.__getattr__ n2 ∧
    authvital_sdk.__getattr__ n1 = authvital_sdk.__getattr__ n2 ∧
    authvader_sdk.__getattr__ n1 =
      .error (.notImplementedError authvader_sdk.sdkMessage) ∧
    authvital_sdk.__getattr__ n1 =
      .error (.notImplementedError authvital_sdk.sdkMessage) :=
  ⟨rfl, rfl, rfl, rfl⟩

/-- The observable behaviour of an attribute handler with the exception
message erased, keeping only the exception class. -/
def behaviourUpToMessage : Except PyExc PyValue → Except String PyValue
  | .ok v => .ok v
  | .error (.notImplementedError _) => .error "NotImplementedError"

/-- C6: the two handlers are behaviourally equivalent up to the constant
text of the error message: for every name both raise NotImplementedError,
and erasing the message makes their behaviours identical. -/
theorem c6_handlers_equivalent_up_to_message (name : String) :
    behaviourUpToMessage (authvader_sdk.__getattr__ name) =
      behaviourUpToMessage (authvital_sdk.__getattr__ name) ∧
    authvader_sdk.__getattr__ name =
      .error (.notImplementedError authvader_sdk.sdkMessage) ∧
    authvital_sdk.__getattr__ name =
      .error (.notImplementedError authvital_sdk.sdkMessage) :=
  ⟨rfl, rfl, rfl⟩

/-- Modelled from the spec: the Token record of section 3 (the token
manager and its Token type are absent from src). -/
structure Token where
  access_token : String
  expires_at : Int
  scope : List String
deriving DecidableEq, Repr

/-- Modelled from the spec: a Token is considered valid iff
current_time < expires_at minus safety_margin. -/
def tokenValid (margin now : Int) (t : Token) : Bool :=
  decide (now < t.expires_at - margin)

/-- Modelled from the spec: the outcome of one refresh network call
(success carrying a Token, or a failure). -/
inductive RefreshResult where
  | success (t : Token)
  | failure (msg : String)
deriving DecidableEq, Repr

/-- Modelled from the spec: the token-manager single-flight state of the
design notes: the cached Token, the guarded slot holding either no
refresh in progress or the waiters attached to the in-flight refresh,
and a counter of refresh network calls issued. -/
structure TMState where
  cached : Option Token
  pending : Option (List Nat)
  refreshCalls : Nat
deriving DecidableEq, Repr

/-- The state of a freshly constructed token manager: nothing cached,
no refresh in flight. -/
def initialTM : TMState :=
  { cached := none, pending := none, refreshCalls := 0 }

/-- Modelled from the spec: a late arrival attaches to the existing
pending refresh instead of issuing a new request; the first arrival
starts the single in-flight refresh. -/
def joinOrStart (caller : Nat) (st : TMState) : TMState :=
  match st.pending with
  | some ws => { st with pending := some (ws ++ [caller]) }
  | none =>
    { st with pending := some [caller], refreshCalls := st.refreshCalls + 1 }

/-- Modelled from the spec: the state change caused by one
get_valid_token arrival: a valid cached Token is served at once;
otherwise the caller joins (or starts) the single in-flight refresh. -/
def getValidTokenStep (margin now : Int) (caller : Nat) (st : TMState) :
    TMState :=
  match st.cached with
  | some t => if tokenValid margin now t then st else joinOrStart caller st
  | none => joinOrStart caller st

/-- Modelled from the spec: completion of the in-flight refresh delivers
its outcome to every waiter; on success the Token is cached. -/
def completeRefresh (r : RefreshResult) (st : TMState) :
    TMState × List (Nat × RefreshResult) :=
  match st.pending with
  | none => (st, [])
  | some ws =>
    ({ st with
        cached := (match r with | .success t => some t | .failure _ => none),
        pending := none },
      ws.map (fun c => (c, r)))

/-- A sequence of get_valid_token arrivals processed in order (the
interleaving of the concurrent calls), none of which sees a completed
refresh. -/
def processCalls (margin now : Int) (callers : List Nat) (st : TMState) :
    TMState :=
  callers.foldl (fun s c => getValidTokenStep margin now c s) st

theorem processCalls_pending (margin now : Int) (callers : List Nat)
    (ws : List Nat) (k : Nat) :
    processCalls margin now callers
        { cached := none, pending := some ws, refreshCalls := k } =
      { cached := none, pending := some (ws ++ callers), refreshCalls := k } := by
  induction callers generalizing ws with
  | nil => simp [processCalls]
  | cons c cs ih =>
    rw [processCalls, List.foldl_cons]
    have hstep : getValidTokenStep margin now c
        { cached := none, pending := some ws, refreshCalls := k } =
        { cached := none, pending := some (ws ++ [c]), refreshCalls := k } := by
      simp [getValidTokenStep, joinOrStart]
    rw [hstep]
    have := ih (ws ++ [c])
    rw [processCalls] at this
    rw [this]
    simp

/-- C7: for every nonempty sequence of concurrent get_valid_token calls
arriving while no token is cached and before any refresh completes,
exactly one refresh network call is issued, and on completion every
caller receives that single refresh outcome. -/
theorem c7_single_flight_coalescing (margin now : Int) (callers : List Nat)
    (r : RefreshResult) (h : callers ≠ []) :
    (processCalls margin now callers initialTM).refreshCalls = 1 ∧
    (completeRefresh r (processCalls margin now callers initialTM)).2 =
      callers.map (fun c => (c, r)) := by
  cases callers with
  | nil => exact absurd rfl h
  | cons c cs =>
    have hstep : getValidTokenStep margin now c initialTM =
        { cached := none, pending := some [c], refreshCalls := 1 } := by
      simp [getValidTokenStep, initialTM, joinOrStart]
    rw [processCalls, List.foldl_cons, hstep]
    have hrest := processCalls_pending margin now cs [c] 1
    rw [processCalls] at hrest
    rw [hrest]
    constructor
    · rfl
    · simp [completeRefresh]

/-- Witness for C7: three concurrent callers with an empty cache produce
exactly one refresh call, and each of the three receives the refresh
failure when it completes. -/
theorem c7_single_flight_coalescing_witness :
    (processCalls 0 0 [0, 1, 2] initialTM).refreshCalls = 1 ∧
    (completeRefresh (.failure "boom") (processCalls 0 0 [0, 1, 2] initialTM)).2 =
      [(0, .failure "boom"), (1, .failure "boom"), (2, .failure "boom")] := by
  have h := c7_single_flight_coalescing 0 0 [0, 1, 2] (.failure "boom") (by decide)
  refine ⟨h.1, ?_⟩
  rw [h.2]
  rfl

/-- Modelled from the spec: the result the transport client surfaces to
its caller on the 401 path (success status, or AuthenticationError when
the retry with a fresh token is also rejected). -/
inductive SendResult where
  | okResp (status : Nat)
  | authenticationError
deriving DecidableEq, Repr

/-- Modelled from the spec: one HTTP attempt, recording the bearer token
attached and the status the server answered. -/
structure Attempt where
  tokenUsed : Token
  status : Nat
deriving DecidableEq, Repr

/-- Modelled from the spec: the token cache the transport client draws
from, with a counter of refresh network calls performed. -/
structure TransportState where
  cached : Option Token
  refreshCount : Nat
deriving DecidableEq, Repr

/-- Modelled from the spec: obtain a valid token: the cached one when
present, otherwise a freshly refreshed one (the refresh oracle is
indexed by the refresh counter so successive refreshes yield the
successive fresh tokens). -/
def acquireToken (fresh : Nat → Token) (st : TransportState) :
    Token × TransportState :=
  match st.cached with
  | some t => (t, st)
  | none =>
    (fresh st.refreshCount,
      { cached := some (fresh st.refreshCount),
        refreshCount := st.refreshCount + 1 })

/-- Modelled from the spec: invalidate forces the next token acquisition
to refresh. -/
def invalidate (st : TransportState) : TransportState :=
  { st with cached := none }

/-- Modelled from the spec: send obtains a token, performs the request,
and on a 401 response invalidates the cached token and retries exactly
once with a fresh token; a second 401 is surfaced as
AuthenticationError and no third attempt is made. -/
def send (fresh : Nat → Token) (respond : Nat → Token → Nat)
    (st : TransportState) : TransportState × List Attempt × SendResult :=
  let p1 := acquireToken fresh st
  let s1 := respond 0 p1.1
  if s1 = 401 then
    let p2 := acquireToken fresh (invalidate p1.2)
    let s2 := respond 1 p2.1
    if s2 = 401 then
      (p2.2, [⟨p1.1, s1⟩, ⟨p2.1, s2⟩], .authenticationError)
    else
      (p2.2, [⟨p1.1, s1⟩, ⟨p2.1, s2⟩], .okResp s2)
  else (p1.2, [⟨p1.1, s1⟩], .okResp s1)

/-- C8: when the server answers 401 to both the original request and the
single retry, the caller receives AuthenticationError, exactly two
attempts were made (one retry, never a third), and the retry consumed a
freshly refreshed token (the refresh counter grew); moreover no run of
send, whatever the responses, ever makes more than two attempts. -/
theorem c8_401_retry_once_then_auth_error (fresh : Nat → Token)
    (respond : Nat → Token → Nat) (st : TransportState)
    (h401 : ∀ i t, respond i t = 401) :
    (send fresh respond st).2.2 = .authenticationError ∧
    (send fresh respond st).2.1.length = 2 ∧
    st.refreshCount < (send fresh respond st).1.refreshCount ∧
    (∀ g r s, (send g r s).2.1.length ≤ 2) := by
  refine ⟨?_, ?_, ?_, ?_⟩
  · cases hc : st.cached <;>
      simp [send, acquireToken, invalidate, h401, hc]
  · cases hc : st.cached <;>
      simp [send, acquireToken, invalidate, h401, hc]
  · cases hc : st.cached <;>
      simp [send, acquireToken, invalidate, h401, hc] <;> omega
  · intro g r s
    by_cases h1 : r 0 (acquireToken g s).1 = 401
    · by_cases h2 :
        r 1 (acquireToken g (invalidate (acquireToken g s).2)).1 = 401 <;>
        simp [send, h1, h2]
    · simp [send, h1]

/-- Witness for C8: with a server that always answers 401 and an empty
cache, send ends in AuthenticationError after exactly two attempts. -/
theorem c8_401_retry_witness :
    (send (fun n => ⟨"tok", (n : Int), []⟩) (fun _ _ => 401)
        ⟨none, 0⟩).2.2 = .authenticationError ∧
    (send (fun n => ⟨"tok", (n : Int), []⟩) (fun _ _ => 401)
        ⟨none, 0⟩).2.1.length = 2 := by
  have h := c8_401_retry_once_then_auth_error
    (fun n => ⟨"tok", (n : Int), []⟩) (fun _ _ => 401) ⟨none, 0⟩
    (fun _ _ => rfl)
  exact ⟨h.1, h.2.1⟩

/-- Modelled from the spec: get_valid_token returns the cached Token when
it is still valid; otherwise it performs a refresh and returns the
refreshed Token; the Boolean records whether a refresh was triggered. -/
def get_valid_token (margin now : Int) (refreshed : Token)
    (cached : Option Token) : Token × Bool :=
  match cached with
  | some t => if tokenValid margin now t then (t, false) else (refreshed, true)
  | none => (refreshed, true)

/-- C9: provided the freshly refreshed Token is itself valid at issuance
and the safety margin is nonnegative, every Token returned by
get_valid_token is valid at the moment it is returned (in particular its
expiry lies strictly in the future), and a Token returned without
triggering a refresh is necessarily a valid cached one. -/
theorem c9_never_returns_expired (margin now : Int) (refreshed : Token)
    (cached : Option Token) (hm : 0 ≤ margin)
    (hfresh : tokenValid margin now refreshed = true) :
    tokenValid margin now (get_valid_token margin now refreshed cached).1 =
      true ∧
    now < (get_valid_token margin now refreshed cached).1.expires_at ∧
    ((get_valid_token margin now refreshed cached).2 = false →
      ∃ t, cached = some t ∧ tokenValid margin now t = true) := by
  cases cached with
  | none =>
    simp only [get_valid_token]
    refine ⟨hfresh, ?_, by simp⟩
    simp [tokenValid] at hfresh ⊢
    omega
  | some t =>
    by_cases hv : tokenValid margin now t = true
    · have hg : get_valid_token margin now refreshed (some t) = (t, false) := by
        simp [get_valid_token, hv]
      rw [hg]
      refine ⟨hv, ?_, fun _ => ⟨t, rfl, hv⟩⟩
      simp [tokenValid] at hv ⊢
      omega
    · have hg : get_valid_token margin now refreshed (some t) =
          (refreshed, true) := by
        simp [get_valid_token, hv]
      rw [hg]
      refine ⟨hfresh, ?_, by simp⟩
      simp [tokenValid] at hfresh ⊢
      omega

/-- Witness for C9: at time 0 with margin 5, an empty cache and a fresh
token expiring at 3600, the returned token is valid and unexpired. -/
theorem c9_never_returns_expired_witness :
    tokenValid 5 0 (get_valid_token 5 0 ⟨"abc", 3600, []⟩ none).1 = true ∧
    (0 : Int) < (get_valid_token 5 0 ⟨"abc", 3600, []⟩ none).1.expires_at := by
  have h := c9_never_returns_expired 5 0 ⟨"abc", 3600, []⟩ none
    (by decide) (by decide)
  exact ⟨h.1, h.2.1⟩

/-- Modelled from the spec: the Credential record of section 3. -/
structure Credential where
  client_id : String
  client_secret : List Nat
deriving DecidableEq, Repr

/-- Modelled from the spec: a client holds the active credential and the
cached Token owned by its token manager. -/
structure ClientState where
  credential : Credential
  cached : Option Token
deriving DecidableEq, Repr

namespace CredentialStore

/-- Modelled from the spec: set replaces the active credential and, as a
side effect, invalidates any cached Token when the credential changes. -/
def set (c : Credential) (st : ClientState) : ClientState :=
  if c = st.credential then st
  else { credential := c, cached := none }

end CredentialStore

/-- C10: after set with new (different) credentials the Token cache is
empty, so the next get_valid_token necessarily triggers a fresh refresh
and returns the refreshed Token rather than the previously cached one. -/
theorem c10_set_invalidates_cache (st : ClientState) (c : Credential)
    (margin now : Int) (refreshed : Token) (h : c ≠ st.credential) :
    (CredentialStore.set c st).cached = none ∧
    (get_valid_token margin now refreshed
        (CredentialStore.set c st).cached).2 = true ∧
    (get_valid_token margin now refreshed
        (CredentialStore.set c st).cached).1 = refreshed := by
  have hset : CredentialStore.set c st =
      { credential := c, cached := none } := by
    simp [CredentialStore.set, h]
  rw [hset]
  exact ⟨rfl, rfl, rfl⟩

/-- Witness for C10: replacing the credential of a client that holds a
cached token empties the cache, and the next get_valid_token refreshes. -/
theorem c10_set_invalidates_cache_witness :
    (CredentialStore.set ⟨"id2", [2]⟩
        ⟨⟨"id1", [1]⟩, some ⟨"old", 99, []⟩⟩).cached = none ∧
    (get_valid_token 0 0 ⟨"new", 100, []⟩
        (CredentialStore.set ⟨"id2", [2]⟩
          ⟨⟨"id1", [1]⟩, some ⟨"old", 99, []⟩⟩).cached).2 = true := by
  have h := c10_set_invalidates_cache
    ⟨⟨"id1", [1]⟩, some ⟨"old", 99, []⟩⟩ ⟨"id2", [2]⟩ 0 0
    ⟨"new", 100, []⟩ (by decide)
  exact ⟨h.1, h.2.1⟩
